import Mathlib

/-
Verification of the azcopy job-part plan and status-aggregator core:
a shallow embedding of src/ste/jobStatusManager.go, src/ste/xfer.go and
the job-part plan file (src/unnamed/part_000), with theorems settling the
specified properties.  Types of the `common` package (enumerations and the
summary record) are not part of the excerpt; they are modelled from the
spec, with only the distinctness of enumeration values used.
-/

namespace AzCopy

/- Modelled from the spec: the `common.TransferStatus` enumeration (the
`common` package is not under src/).  Statuses are small values stored in a
32-bit word; the spec names InProgress/Completed/Failed, the skip variants
and the tier-failure variants.  The concrete numerals below are arbitrary:
every theorem uses only the fact that the named values are pairwise
distinct. -/
namespace ETransferStatus

def NotStarted : Int := 0

def Started : Int := 1

def Success : Int := 2

def Failed : Int := -1

def BlobTierFailure : Int := -2

def SkippedEntityAlreadyExists : Int := -3

def SkippedBlobHasSnapshots : Int := -4

def TierAvailabilityCheckFailure : Int := -5

def Cancelled : Int := -6

end ETransferStatus

/-- Modelled from the spec: `common.Iffint32(test, trueVal, falseVal)`
(the `common` package is not under src/): selects between two int32
values. -/
def Iffint32 (test : Bool) (trueVal falseVal : Int) : Int :=
  if test then trueVal else falseVal

/-- Embeds `SetTransferStatus` (src/unnamed/part_000, lines 186-191).  The
source applies, via `common.AtomicMorphInt32`, the morph
`fun startVal => Iffint32(startVal == Failed.Value, startVal, status.Value)`
to the stored status word; the CAS retry loop's net effect on the stored
value is exactly this pure transition function, taking the current stored
value and the requested new status to the value stored afterwards. -/
def SetTransferStatus (startVal status : Int) : Int :=
  Iffint32 (startVal == ETransferStatus.Failed) startVal status

/- Modelled from the spec: the `common.EFromTo` enumeration of
(source-kind, destination-kind) pairs (the `common` package is not under
src/).  The four pairs named by the spec get arbitrary distinct values;
every other integer is an undefined pair. -/
namespace EFromTo

def BlobLocal : Int := 1

def LocalBlob : Int := 2

def FileLocal : Int := 3

def LocalFile : Int := 4

end EFromTo

/-- The transfer strategies that `computeJobXfer` can return; the two
implemented prologue functions are external collaborators, modelled as
opaque tags. -/
inductive newJobXfer where
  | BlobToLocalPrologue
  | LocalToBlockBlob
deriving DecidableEq

/-- Embeds `computeJobXfer` (src/ste/xfer.go, lines 52-64).  The Go switch
returns `BlobToLocalPrologue` for BlobLocal, `LocalToBlockBlob` for
LocalBlob, the nil strategy (`none`, the not-yet-implemented marker) for
FileLocal and LocalFile, and panics on any other value; the panic is
embedded as `Except.error`. -/
def computeJobXfer (fromTo : Int) : Except String (Option newJobXfer) :=
  if fromTo = EFromTo.BlobLocal then .ok (some .BlobToLocalPrologue)
  else if fromTo = EFromTo.LocalBlob then .ok (some .LocalToBlockBlob)
  else if fromTo = EFromTo.FileLocal then .ok none
  else if fromTo = EFromTo.LocalFile then .ok none
  else .error ("Unrecognized FromTo")

/-- Modelled from the spec: `common.TransferDetail` (the `common` package
is not under src/), the per-outcome detail record: source and destination
names, the outcome's status word and its transfer size.  `xferDoneMsg` is
an alias of this type in the source. -/
structure TransferDetail where
  Src : String
  Dst : String
  TransferStatus : Int
  TransferSize : Nat
deriving DecidableEq

/-- Modelled from the spec: `common.ListJobSummaryResponse` (the `common`
package is not under src/), the job-summary report shape: timestamp, JobID,
fully-enumerated flag, transfer counts, file/folder sub-counts, byte
counters, failure and skip detail lists, and an error-message field. -/
structure ListJobSummaryResponse where
  Timestamp : Nat
  JobID : Nat
  ErrorMsg : String
  CompleteJobOrdered : Bool
  TotalTransfers : Nat
  FileTransfers : Nat
  FolderPropertyTransfers : Nat
  TransfersCompleted : Nat
  TransfersFailed : Nat
  TransfersSkipped : Nat
  TotalBytesEnumerated : Nat
  TotalBytesExpected : Nat
  TotalBytesTransferred : Nat
  FailedTransfers : List TransferDetail
  SkippedTransfers : List TransferDetail
deriving DecidableEq

/-- The all-zero summary (a fresh `common.ListJobSummaryResponse`). -/
def zeroSummary : ListJobSummaryResponse :=
  { Timestamp := 0, JobID := 0, ErrorMsg := "", CompleteJobOrdered := false,
    TotalTransfers := 0, FileTransfers := 0, FolderPropertyTransfers := 0,
    TransfersCompleted := 0, TransfersFailed := 0, TransfersSkipped := 0,
    TotalBytesEnumerated := 0, TotalBytesExpected := 0,
    TotalBytesTransferred := 0, FailedTransfers := [], SkippedTransfers := [] }

/-- Embeds `jobPartCreatedMsg` (src/ste/jobStatusManager.go, lines 30-36):
the part-creation event. -/
structure jobPartCreatedMsg where
  totalTransfers : Nat
  isFinalPart : Bool
  totalBytesEnumerated : Nat
  fileTransfers : Nat
  folderTransfer : Nat
deriving DecidableEq

/-- Embeds `SMUpdateJobpartCreated` (src/ste/jobStatusManager.go, lines
164-175) and the identical `SendJobPartCreatedMsg` (lines 48-59): under the
shared lock, ORs `isFinalPart` into `CompleteJobOrdered` and adds the
message's counts to the running totals, adding `totalBytesEnumerated` to
both byte counters. -/
def SMUpdateJobpartCreated (msg : jobPartCreatedMsg) (js : ListJobSummaryResponse) :
    ListJobSummaryResponse :=
  { js with
    CompleteJobOrdered := js.CompleteJobOrdered || msg.isFinalPart,
    TotalTransfers := js.TotalTransfers + msg.totalTransfers,
    FileTransfers := js.FileTransfers + msg.fileTransfers,
    FolderPropertyTransfers := js.FolderPropertyTransfers + msg.folderTransfer,
    TotalBytesEnumerated := js.TotalBytesEnumerated + msg.totalBytesEnumerated,
    TotalBytesExpected := js.TotalBytesExpected + msg.totalBytesEnumerated }

/-- Embeds `SMUpdateXferDone` (src/ste/jobStatusManager.go, lines 177-196)
and the identical `SendXferDoneMsg` (lines 61-80): the Go switch on
`msg.TransferStatus`, taken case by case in order; a status matching no
case leaves the summary unchanged. -/
def SMUpdateXferDone (msg : TransferDetail) (js : ListJobSummaryResponse) :
    ListJobSummaryResponse :=
  if msg.TransferStatus = ETransferStatus.Success then
    { js with
      TransfersCompleted := js.TransfersCompleted + 1,
      TotalBytesTransferred := js.TotalBytesTransferred + msg.TransferSize }
  else if msg.TransferStatus = ETransferStatus.Failed ∨
      msg.TransferStatus = ETransferStatus.TierAvailabilityCheckFailure ∨
      msg.TransferStatus = ETransferStatus.BlobTierFailure then
    { js with
      TransfersFailed := js.TransfersFailed + 1,
      FailedTransfers := js.FailedTransfers ++ [msg] }
  else if msg.TransferStatus = ETransferStatus.SkippedEntityAlreadyExists ∨
      msg.TransferStatus = ETransferStatus.SkippedBlobHasSnapshots then
    { js with
      TransfersSkipped := js.TransfersSkipped + 1,
      SkippedTransfers := js.SkippedTransfers ++ [msg] }
  else js

/-- Embeds `ListJobSummary` of the value-based manager
(src/ste/jobStatusManager.go, lines 82-93).  The source writes through a
pointer to the stored summary: it stamps `Timestamp` with the current time
and `JobID` with the manager's id, resets `CompleteJobOrdered` to false and
clears `ErrorMsg`, then returns a copy of the (now modified) stored value.
The wall clock and the manager's JobID are passed explicitly; the result is
(returned copy, stored summary afterwards). -/
def ListJobSummary (now jobID : Nat) (js : ListJobSummaryResponse) :
    ListJobSummaryResponse × ListJobSummaryResponse :=
  let stored := { js with Timestamp := now, JobID := jobID,
                          CompleteJobOrdered := false, ErrorMsg := "" }
  (stored, stored)

/-- Embeds `ListJobSummary` of the pointer-based manager
(src/ste/jobStatusManager.go, lines 198-204): copies the stored summary and
returns it, modifying nothing and stamping nothing.  The result is
(returned copy, stored summary afterwards). -/
def ListJobSummaryResumed (js : ListJobSummaryResponse) :
    ListJobSummaryResponse × ListJobSummaryResponse :=
  (js, js)

/-- Embeds `InitStatusMgr` (src/ste/jobStatusManager.go, lines 152-161):
if a summary is already installed the call panics (embedded as an error
message, with the state left as it was, since `jm.Panic` aborts before the
assignment); otherwise it installs the given summary.  The result is
(stored summary afterwards, error if any). -/
def InitStatusMgr (js : ListJobSummaryResponse)
    (stored : Option ListJobSummaryResponse) :
    Option ListJobSummaryResponse × Option String :=
  match stored with
  | some s => (some s, some ("StatusMgr already init"))
  | none => (some js, none)

/-- Embeds `Transfer` (src/unnamed/part_000, lines 71-80): panics
(embedded as an error) when `transferIndex >= NumTransfers`, else returns
the record's address `headerAddress + sizeof(header) +
sizeof(record) * transferIndex`, here as an offset from the header base
with the two sizes passed explicitly (they are `unsafe.Sizeof` values fixed
by the platform). -/
def Transfer (numTransfers headerSize recordSize transferIndex : Nat) :
    Except String Nat :=
  if transferIndex ≥ numTransfers then
    .error ("requesting a transfer index greater than what is available")
  else
    .ok (headerSize + recordSize * transferIndex)

/-- Embeds `JobPartPlanTransfer` (src/unnamed/part_000, lines 154-178):
the fixed-size transfer record.  `SrcOffset` (int64) and the two lengths
(int16) are non-negative in every well-formed plan and are used as
`uintptr` in the source's address arithmetic, so they are carried as Nat. -/
structure JobPartPlanTransfer where
  SrcOffset : Nat
  SrcLength : Nat
  DstLength : Nat
  ModifiedTime : Int
  SourceSize : Int
  CompletionTime : Nat
  atomicTransferStatus : Int
deriving DecidableEq

/-- Reading `len` bytes of mapped memory starting at address `off`, as the
source's slice-header construction does: the bytes at `off, off+1, ...`
whatever they hold, with no bounds information consulted. -/
def readBytes (mem : Nat → UInt8) (off len : Nat) : List UInt8 :=
  (List.range len).map fun i => mem (off + i)

/-- Writing the bytes `bs` into memory starting at address `off`; addresses
outside the window keep their old contents.  Used to state the write/read
round trip of the string blob. -/
def writeBytes (mem : Nat → UInt8) (off : Nat) (bs : List UInt8) :
    Nat → UInt8 :=
  fun a => if off ≤ a ∧ a < off + bs.length then bs.getD (a - off) 0 else mem a

/-- Embeds `TransferSrcDstStrings` (src/unnamed/part_000, lines 83-99):
looks up the transfer record via `Transfer` (panic, embedded as an error,
when the index is out of range), then builds the source string from
`SrcLength` bytes at `headerAddress + SrcOffset` and the destination string
from `DstLength` bytes at `headerAddress + SrcOffset + SrcLength`.  The
mapped region's contents are the ambient memory `mem` with the header at
address 0; the source performs no bounds check against the region's size,
and neither does this embedding. -/
def TransferSrcDstStrings (mem : Nat → UInt8)
    (transfers : List JobPartPlanTransfer) (transferIndex : Nat) :
    Except String (List UInt8 × List UInt8) :=
  match transfers[transferIndex]? with
  | none => .error ("requesting a transfer index greater than what is available")
  | some jppt =>
      .ok (readBytes mem jppt.SrcOffset jppt.SrcLength,
           readBytes mem (jppt.SrcOffset + jppt.SrcLength) jppt.DstLength)

/-- Folding `SetTransferStatus` from the Failed value never leaves it:
each call keeps the current value because the morph's test is true. -/
theorem foldl_setTransferStatus_failed (calls : List Int) :
    calls.foldl SetTransferStatus ETransferStatus.Failed =
      ETransferStatus.Failed := by
  induction calls with
  | nil => rfl
  | cons c t ih =>
      simpa [SetTransferStatus, Iffint32] using ih

/-- Once some call in the sequence passes the Failed value, the fold ends
at Failed no matter what follows. -/
theorem foldl_setTransferStatus_of_mem_failed :
    ∀ (calls : List Int) (s0 : Int), ETransferStatus.Failed ∈ calls →
      calls.foldl SetTransferStatus s0 = ETransferStatus.Failed := by
  intro calls
  induction calls with
  | nil => intro s0 h; cases h
  | cons c t ih =>
      intro s0 h
      rcases List.mem_cons.mp h with hc | hc
      · subst hc
        have hstep : SetTransferStatus s0 ETransferStatus.Failed =
            ETransferStatus.Failed := by
          rcases eq_or_ne s0 ETransferStatus.Failed with he | he <;>
            simp [SetTransferStatus, Iffint32, he]
        simpa [List.foldl_cons, hstep] using
          foldl_setTransferStatus_failed t
      · simpa [List.foldl_cons] using ih (SetTransferStatus s0 c) hc

/-- Claim C1: for every transfer record and every finite sequence of
SetTransferStatus calls, if some call passes the Failed status then the
status observed after all remaining calls is still Failed; moreover each
single call keeps the stored status when the current value equals Failed
and stores the new status otherwise. -/
theorem C1_setTransferStatus_failed_is_sticky (s0 : Int) (calls : List Int)
    (h : ETransferStatus.Failed ∈ calls) :
    calls.foldl SetTransferStatus s0 = ETransferStatus.Failed ∧
    ∀ current newStatus : Int,
      SetTransferStatus current newStatus =
        if current = ETransferStatus.Failed then current else newStatus := by
  refine ⟨foldl_setTransferStatus_of_mem_failed calls s0 h, ?_⟩
  intro current newStatus
  rcases eq_or_ne current ETransferStatus.Failed with he | he <;>
    simp [SetTransferStatus, Iffint32, he]

/-- Witness for C1 at a concrete call sequence: Success, Failed, Success,
Started applied to a NotStarted record end at Failed. -/
theorem C1_witness :
    ETransferStatus.Failed ∈
      [ETransferStatus.Success, ETransferStatus.Failed,
       ETransferStatus.Success, ETransferStatus.Started] ∧
    [ETransferStatus.Success, ETransferStatus.Failed,
     ETransferStatus.Success, ETransferStatus.Started].foldl
        SetTransferStatus ETransferStatus.NotStarted =
      ETransferStatus.Failed :=
  ⟨by decide,
   (C1_setTransferStatus_failed_is_sticky ETransferStatus.NotStarted _
      (by decide)).1⟩

/-- Claim C3: computeJobXfer returns the expected strategy for BlobLocal
and LocalBlob, the explicit not-yet-implemented nil result for FileLocal
and LocalFile without crashing, and fails fatally (the embedded panic) on
every undefined FromTo value. -/
theorem C3_computeJobXfer_three_outcomes :
    computeJobXfer EFromTo.BlobLocal =
        .ok (some newJobXfer.BlobToLocalPrologue) ∧
    computeJobXfer EFromTo.LocalBlob =
        .ok (some newJobXfer.LocalToBlockBlob) ∧
    computeJobXfer EFromTo.FileLocal = .ok none ∧
    computeJobXfer EFromTo.LocalFile = .ok none ∧
    ∀ fromTo : Int, fromTo ≠ EFromTo.BlobLocal → fromTo ≠ EFromTo.LocalBlob →
      fromTo ≠ EFromTo.FileLocal → fromTo ≠ EFromTo.LocalFile →
      computeJobXfer fromTo = .error ("Unrecognized FromTo") := by
  refine ⟨rfl, rfl, rfl, rfl, ?_⟩
  intro fromTo h1 h2 h3 h4
  simp [computeJobXfer, h1, h2, h3, h4]

/-- Witness for C3 at a concrete undefined pair: the fabricated value 99
hits the fatal-error arm. -/
theorem C3_witness :
    computeJobXfer 99 = Except.error ("Unrecognized FromTo") :=
  C3_computeJobXfer_three_outcomes.2.2.2.2 99
    (by decide) (by decide) (by decide) (by decide)

/-- Claim C5: InitStatusMgr installs the given summary when none is
installed, and a second call fails fatally (the embedded panic) while
leaving the first-installed summary exactly as it was. -/
theorem C5_initStatusMgr_exactly_once (js1 js2 : ListJobSummaryResponse) :
    InitStatusMgr js1 none = (some js1, none) ∧
    InitStatusMgr js2 (some js1) =
      (some js1, some ("StatusMgr already init")) := by
  exact ⟨rfl, rfl⟩

/-- Claim C8: Transfer fails with the out-of-range error exactly when the
index reaches NumTransfers, otherwise returns the record address
headerSize + recordSize * index, and the byte ranges of distinct records
never overlap. -/
theorem C8_transfer_bounds_and_disjoint
    (numTransfers headerSize recordSize : Nat) :
    (∀ transferIndex,
        Transfer numTransfers headerSize recordSize transferIndex =
            .error ("requesting a transfer index greater than what is available") ↔
          numTransfers ≤ transferIndex) ∧
    (∀ transferIndex, transferIndex < numTransfers →
        Transfer numTransfers headerSize recordSize transferIndex =
          .ok (headerSize + recordSize * transferIndex)) ∧
    (∀ i j, i < numTransfers → j < numTransfers → i ≠ j →
        ∀ a, headerSize + recordSize * i ≤ a →
          a < headerSize + recordSize * i + recordSize →
          ¬(headerSize + recordSize * j ≤ a ∧
            a < headerSize + recordSize * j + recordSize)) := by
  refine ⟨?_, ?_, ?_⟩
  · intro idx
    by_cases h : numTransfers ≤ idx <;> simp [Transfer, h]
  · intro idx h
    simp [Transfer, Nat.not_le.mpr h]
  · intro i j hi hj hne a ha1 ha2 hcontra
    obtain ⟨ha3, ha4⟩ := hcontra
    rcases Nat.lt_or_ge i j with hij | hij
    · have hmul : recordSize * (i + 1) ≤ recordSize * j :=
        mul_le_mul_left' hij recordSize
      rw [Nat.mul_succ] at hmul
      linarith
    · have hji : j < i := Nat.lt_of_le_of_ne hij (Ne.symm hne)
      have hmul : recordSize * (j + 1) ≤ recordSize * i :=
        mul_le_mul_left' hji recordSize
      rw [Nat.mul_succ] at hmul
      linarith

/-- Witness for C8 at a concrete plan: three records, header of 100 bytes,
records of 64 bytes; record 1 sits at address 164. -/
theorem C8_witness : Transfer 3 100 64 1 = Except.ok 164 := by
  simpa using (C8_transfer_bounds_and_disjoint 3 100 64).2.1 1 (by decide)

/-- A concrete non-zero seeded summary used to exercise the snapshot. -/
def exSeed : ListJobSummaryResponse :=
  { Timestamp := 5, JobID := 3, ErrorMsg := "late join",
    CompleteJobOrdered := true,
    TotalTransfers := 12, FileTransfers := 9, FolderPropertyTransfers := 3,
    TransfersCompleted := 7, TransfersFailed := 2, TransfersSkipped := 1,
    TotalBytesEnumerated := 4096, TotalBytesExpected := 4096,
    TotalBytesTransferred := 2048,
    FailedTransfers := [], SkippedTransfers := [] }

/-- Claim C2 is false on the code at a concrete input: the value-based
ListJobSummary write-through resets the stored summary's fully-enumerated
flag (so the snapshot does change a flag of the stored summary, and the
returned summary differs from the seeded one beyond the timestamp), while
the pointer-based ListJobSummary stamps no fresh timestamp at all. -/
theorem C2_counterexample :
    exSeed.CompleteJobOrdered = true ∧
    (ListJobSummary 99 3 exSeed).2.CompleteJobOrdered = false ∧
    (ListJobSummary 99 3 exSeed).1 ≠
      { exSeed with Timestamp := (ListJobSummary 99 3 exSeed).1.Timestamp } ∧
    (ListJobSummaryResumed exSeed).1.Timestamp = exSeed.Timestamp := by
  refine ⟨rfl, rfl, ?_, rfl⟩
  intro h
  have := congrArg ListJobSummaryResponse.CompleteJobOrdered h
  simp [ListJobSummary, exSeed] at this

/-- Claim C2 amended: the value-based ListJobSummary returns exactly the
stored summary after stamping Timestamp with the current time and JobID
with the manager's id, resetting the fully-enumerated flag and clearing the
error message — every counter and both detail lists are unchanged, and a
seeded summary is returned unchanged except for those four fields; the
pointer-based ListJobSummary returns the stored summary completely
unchanged and stamps nothing. -/
theorem C2_amended_snapshot (now jobID : Nat) (js : ListJobSummaryResponse) :
    (ListJobSummary now jobID js).1 = (ListJobSummary now jobID js).2 ∧
    (ListJobSummary now jobID js).1 =
      { js with Timestamp := now, JobID := jobID,
                CompleteJobOrdered := false, ErrorMsg := "" } ∧
    ListJobSummaryResumed js = (js, js) :=
  ⟨rfl, rfl, rfl⟩

/-- Claim C6: SMUpdateXferDone sends Success to the completed bucket
(count and transferred bytes), the three failure statuses to the failed
bucket (count and failure list), the two skip statuses to the skipped
bucket (count and skip list), and leaves the summary completely unchanged
on every other status value. -/
theorem C6_xferDone_three_buckets (js : ListJobSummaryResponse)
    (msg : TransferDetail) :
    (msg.TransferStatus = ETransferStatus.Success →
      SMUpdateXferDone msg js =
        { js with TransfersCompleted := js.TransfersCompleted + 1,
                  TotalBytesTransferred :=
                    js.TotalBytesTransferred + msg.TransferSize }) ∧
    (msg.TransferStatus = ETransferStatus.Failed ∨
     msg.TransferStatus = ETransferStatus.TierAvailabilityCheckFailure ∨
     msg.TransferStatus = ETransferStatus.BlobTierFailure →
      SMUpdateXferDone msg js =
        { js with TransfersFailed := js.TransfersFailed + 1,
                  FailedTransfers := js.FailedTransfers ++ [msg] }) ∧
    (msg.TransferStatus = ETransferStatus.SkippedEntityAlreadyExists ∨
     msg.TransferStatus = ETransferStatus.SkippedBlobHasSnapshots →
      SMUpdateXferDone msg js =
        { js with TransfersSkipped := js.TransfersSkipped + 1,
                  SkippedTransfers := js.SkippedTransfers ++ [msg] }) ∧
    (¬(msg.TransferStatus = ETransferStatus.Success ∨
       msg.TransferStatus = ETransferStatus.Failed ∨
       msg.TransferStatus = ETransferStatus.TierAvailabilityCheckFailure ∨
       msg.TransferStatus = ETransferStatus.BlobTierFailure ∨
       msg.TransferStatus = ETransferStatus.SkippedEntityAlreadyExists ∨
       msg.TransferStatus = ETransferStatus.SkippedBlobHasSnapshots) →
      SMUpdateXferDone msg js = js) := by
  refine ⟨?_, ?_, ?_, ?_⟩
  · intro h
    simp [SMUpdateXferDone, h]
  · intro h
    rcases h with h | h | h <;>
      simp [SMUpdateXferDone, h, ETransferStatus.Success,
        ETransferStatus.Failed, ETransferStatus.TierAvailabilityCheckFailure,
        ETransferStatus.BlobTierFailure]
  · intro h
    rcases h with h | h <;>
      simp [SMUpdateXferDone, h, ETransferStatus.Success,
        ETransferStatus.Failed, ETransferStatus.TierAvailabilityCheckFailure,
        ETransferStatus.BlobTierFailure,
        ETransferStatus.SkippedEntityAlreadyExists,
        ETransferStatus.SkippedBlobHasSnapshots]
  · intro h
    simp only [not_or] at h
    obtain ⟨h1, h2, h3, h4, h5, h6⟩ := h
    simp [SMUpdateXferDone, h1, h2, h3, h4, h5, h6]

/-- A concrete successful outcome of size 1024. -/
def exSuccessDetail : TransferDetail :=
  { Src := "/a/b.txt", Dst := "container/b.txt",
    TransferStatus := ETransferStatus.Success, TransferSize := 1024 }

/-- Witness for C6 at a concrete input: one Success outcome of size 1024
on the zero summary lands in the completed bucket. -/
theorem C6_witness :
    SMUpdateXferDone exSuccessDetail zeroSummary =
      { zeroSummary with
        TransfersCompleted := zeroSummary.TransfersCompleted + 1,
        TotalBytesTransferred :=
          zeroSummary.TotalBytesTransferred + exSuccessDetail.TransferSize } :=
  (C6_xferDone_three_buckets zeroSummary exSuccessDetail).1 rfl

/-- Folding part-created events over a summary: a finite sequence of
SMUpdateJobpartCreated calls. -/
def applyPartCreated (js : ListJobSummaryResponse)
    (msgs : List jobPartCreatedMsg) : ListJobSummaryResponse :=
  msgs.foldl (fun s m => SMUpdateJobpartCreated m s) js

/-- Characterization of a sequence of part-created updates: the flag is
the OR of its initial value with the events' final-part bits, and every
counter grows by the sum of the corresponding event fields. -/
theorem applyPartCreated_fields (msgs : List jobPartCreatedMsg) :
    ∀ js : ListJobSummaryResponse,
      (applyPartCreated js msgs).CompleteJobOrdered =
        (js.CompleteJobOrdered || msgs.any (fun m => m.isFinalPart)) ∧
      (applyPartCreated js msgs).TotalTransfers =
        js.TotalTransfers + (msgs.map (fun m => m.totalTransfers)).sum ∧
      (applyPartCreated js msgs).FileTransfers =
        js.FileTransfers + (msgs.map (fun m => m.fileTransfers)).sum ∧
      (applyPartCreated js msgs).FolderPropertyTransfers =
        js.FolderPropertyTransfers +
          (msgs.map (fun m => m.folderTransfer)).sum ∧
      (applyPartCreated js msgs).TotalBytesEnumerated =
        js.TotalBytesEnumerated +
          (msgs.map (fun m => m.totalBytesEnumerated)).sum ∧
      (applyPartCreated js msgs).TotalBytesExpected =
        js.TotalBytesExpected +
          (msgs.map (fun m => m.totalBytesEnumerated)).sum := by
  induction msgs with
  | nil => intro js; simp [applyPartCreated]
  | cons m t ih =>
      intro js
      have hstep : applyPartCreated js (m :: t) =
          applyPartCreated (SMUpdateJobpartCreated m js) t := rfl
      obtain ⟨h1, h2, h3, h4, h5, h6⟩ := ih (SMUpdateJobpartCreated m js)
      refine ⟨?_, ?_, ?_, ?_, ?_, ?_⟩
      · rw [hstep, h1]
        simp [SMUpdateJobpartCreated, Bool.or_assoc]
      · rw [hstep, h2]
        simp only [SMUpdateJobpartCreated, List.map_cons, List.sum_cons]
        omega
      · rw [hstep, h3]
        simp only [SMUpdateJobpartCreated, List.map_cons, List.sum_cons]
        omega
      · rw [hstep, h4]
        simp only [SMUpdateJobpartCreated, List.map_cons, List.sum_cons]
        omega
      · rw [hstep, h5]
        simp only [SMUpdateJobpartCreated, List.map_cons, List.sum_cons]
        omega
      · rw [hstep, h6]
        simp only [SMUpdateJobpartCreated, List.map_cons, List.sum_cons]
        omega

/-- Claim C7: a sequence of part-created events adds each event's counts
to the running totals and ORs its final-part bit into the fully-enumerated
flag, which therefore stays true once set; the concrete event pair
(150, false, 1000000) then (50, true, 500000) yields TotalTransfers 200,
a true flag and TotalBytesEnumerated 1500000. -/
theorem C7_partCreated_accumulates :
    (∀ (js : ListJobSummaryResponse) (msgs : List jobPartCreatedMsg),
      (applyPartCreated js msgs).CompleteJobOrdered =
        (js.CompleteJobOrdered || msgs.any (fun m => m.isFinalPart)) ∧
      (applyPartCreated js msgs).TotalTransfers =
        js.TotalTransfers + (msgs.map (fun m => m.totalTransfers)).sum ∧
      (applyPartCreated js msgs).FileTransfers =
        js.FileTransfers + (msgs.map (fun m => m.fileTransfers)).sum ∧
      (applyPartCreated js msgs).FolderPropertyTransfers =
        js.FolderPropertyTransfers +
          (msgs.map (fun m => m.folderTransfer)).sum ∧
      (applyPartCreated js msgs).TotalBytesEnumerated =
        js.TotalBytesEnumerated +
          (msgs.map (fun m => m.totalBytesEnumerated)).sum) ∧
    (applyPartCreated zeroSummary
      [⟨150, false, 1000000, 0, 0⟩, ⟨50, true, 500000, 0, 0⟩]).TotalTransfers
        = 200 ∧
    (applyPartCreated zeroSummary
      [⟨150, false, 1000000, 0, 0⟩,
       ⟨50, true, 500000, 0, 0⟩]).CompleteJobOrdered = true ∧
    (applyPartCreated zeroSummary
      [⟨150, false, 1000000, 0, 0⟩,
       ⟨50, true, 500000, 0, 0⟩]).TotalBytesEnumerated = 1500000 := by
  refine ⟨?_, rfl, rfl, rfl⟩
  intro js msgs
  obtain ⟨h1, h2, h3, h4, h5, _⟩ := applyPartCreated_fields msgs js
  exact ⟨h1, h2, h3, h4, h5⟩

/-- Claim C10: part-created updates add the same byte count to both byte
counters, so summaries in which expected equals enumerated keep that
equality under every sequence of part-created events. -/
theorem C10_partCreated_preserves_expected_eq_enumerated
    (js : ListJobSummaryResponse) (msgs : List jobPartCreatedMsg)
    (h : js.TotalBytesExpected = js.TotalBytesEnumerated) :
    (applyPartCreated js msgs).TotalBytesExpected =
      (applyPartCreated js msgs).TotalBytesEnumerated := by
  obtain ⟨_, _, _, _, h5, h6⟩ := applyPartCreated_fields msgs js
  rw [h5, h6, h]

/-- Witness for C10 at a concrete input: the zero summary (where both byte
counters are 0) keeps the two counters equal after a part-created event. -/
theorem C10_witness :
    (applyPartCreated zeroSummary
        [⟨150, false, 1000000, 0, 0⟩]).TotalBytesExpected =
      (applyPartCreated zeroSummary
        [⟨150, false, 1000000, 0, 0⟩]).TotalBytesEnumerated :=
  C10_partCreated_preserves_expected_eq_enumerated zeroSummary _ rfl

/-- The success bucket test of the SMUpdateXferDone switch. -/
def isSuccessMsg (m : TransferDetail) : Bool :=
  m.TransferStatus == ETransferStatus.Success

/-- The failure bucket test of the SMUpdateXferDone switch. -/
def isFailedMsg (m : TransferDetail) : Bool :=
  m.TransferStatus == ETransferStatus.Failed ||
  m.TransferStatus == ETransferStatus.TierAvailabilityCheckFailure ||
  m.TransferStatus == ETransferStatus.BlobTierFailure

/-- The skip bucket test of the SMUpdateXferDone switch. -/
def isSkippedMsg (m : TransferDetail) : Bool :=
  m.TransferStatus == ETransferStatus.SkippedEntityAlreadyExists ||
  m.TransferStatus == ETransferStatus.SkippedBlobHasSnapshots

/-- One SMUpdateXferDone call, described per field through the three
bucket tests (which are mutually exclusive since the status values are
distinct). -/
theorem SMUpdateXferDone_fields (m : TransferDetail)
    (js : ListJobSummaryResponse) :
    (SMUpdateXferDone m js).TransfersCompleted =
      js.TransfersCompleted + (if isSuccessMsg m then 1 else 0) ∧
    (SMUpdateXferDone m js).TotalBytesTransferred =
      js.TotalBytesTransferred +
        (if isSuccessMsg m then m.TransferSize else 0) ∧
    (SMUpdateXferDone m js).TransfersFailed =
      js.TransfersFailed + (if isFailedMsg m then 1 else 0) ∧
    (SMUpdateXferDone m js).FailedTransfers =
      js.FailedTransfers ++ (if isFailedMsg m then [m] else []) ∧
    (SMUpdateXferDone m js).TransfersSkipped =
      js.TransfersSkipped + (if isSkippedMsg m then 1 else 0) ∧
    (SMUpdateXferDone m js).SkippedTransfers =
      js.SkippedTransfers ++ (if isSkippedMsg m then [m] else []) := by
  by_cases hS : m.TransferStatus = ETransferStatus.Success
  · refine ⟨?_, ?_, ?_, ?_, ?_, ?_⟩ <;>
      simp [SMUpdateXferDone, isSuccessMsg, isFailedMsg, isSkippedMsg, hS,
        ETransferStatus.Success, ETransferStatus.Failed,
        ETransferStatus.TierAvailabilityCheckFailure,
        ETransferStatus.BlobTierFailure,
        ETransferStatus.SkippedEntityAlreadyExists,
        ETransferStatus.SkippedBlobHasSnapshots]
  · by_cases hF : m.TransferStatus = ETransferStatus.Failed ∨
        m.TransferStatus = ETransferStatus.TierAvailabilityCheckFailure ∨
        m.TransferStatus = ETransferStatus.BlobTierFailure
    · rcases hF with h | h | h <;>
        refine ⟨?_, ?_, ?_, ?_, ?_, ?_⟩ <;>
          simp [SMUpdateXferDone, isSuccessMsg, isFailedMsg, isSkippedMsg, h,
            ETransferStatus.Success, ETransferStatus.Failed,
            ETransferStatus.TierAvailabilityCheckFailure,
            ETransferStatus.BlobTierFailure,
            ETransferStatus.SkippedEntityAlreadyExists,
            ETransferStatus.SkippedBlobHasSnapshots]
    · by_cases hK : m.TransferStatus = ETransferStatus.SkippedEntityAlreadyExists ∨
          m.TransferStatus = ETransferStatus.SkippedBlobHasSnapshots
      · rcases hK with h | h <;>
          refine ⟨?_, ?_, ?_, ?_, ?_, ?_⟩ <;>
            simp [SMUpdateXferDone, isSuccessMsg, isFailedMsg, isSkippedMsg, h,
              ETransferStatus.Success, ETransferStatus.Failed,
              ETransferStatus.TierAvailabilityCheckFailure,
              ETransferStatus.BlobTierFailure,
              ETransferStatus.SkippedEntityAlreadyExists,
              ETransferStatus.SkippedBlobHasSnapshots]
      · simp only [not_or] at hF hK
        obtain ⟨hF1, hF2, hF3⟩ := hF
        obtain ⟨hK1, hK2⟩ := hK
        refine ⟨?_, ?_, ?_, ?_, ?_, ?_⟩ <;>
          simp [SMUpdateXferDone, isSuccessMsg, isFailedMsg, isSkippedMsg,
            hS, hF1, hF2, hF3, hK1, hK2]

/-- Folding transfer-done outcomes over a summary: a finite sequence of
SMUpdateXferDone calls. -/
def applyXferDone (js : ListJobSummaryResponse)
    (msgs : List TransferDetail) : ListJobSummaryResponse :=
  msgs.foldl (fun s m => SMUpdateXferDone m s) js

/-- Characterization of a sequence of transfer-done updates: counts grow
by the number of outcomes in each bucket, transferred bytes by the sizes of
the successes, and the detail lists by the bucket's outcomes in order. -/
theorem applyXferDone_fields (msgs : List TransferDetail) :
    ∀ js : ListJobSummaryResponse,
      (applyXferDone js msgs).TransfersCompleted =
        js.TransfersCompleted + msgs.countP isSuccessMsg ∧
      (applyXferDone js msgs).TotalBytesTransferred =
        js.TotalBytesTransferred +
          ((msgs.filter isSuccessMsg).map (fun m => m.TransferSize)).sum ∧
      (applyXferDone js msgs).TransfersFailed =
        js.TransfersFailed + msgs.countP isFailedMsg ∧
      (applyXferDone js msgs).FailedTransfers =
        js.FailedTransfers ++ msgs.filter isFailedMsg ∧
      (applyXferDone js msgs).TransfersSkipped =
        js.TransfersSkipped + msgs.countP isSkippedMsg ∧
      (applyXferDone js msgs).SkippedTransfers =
        js.SkippedTransfers ++ msgs.filter isSkippedMsg := by
  induction msgs with
  | nil => intro js; simp [applyXferDone]
  | cons m t ih =>
      intro js
      have hstep : applyXferDone js (m :: t) =
          applyXferDone (SMUpdateXferDone m js) t := rfl
      obtain ⟨g1, g2, g3, g4, g5, g6⟩ := SMUpdateXferDone_fields m js
      obtain ⟨h1, h2, h3, h4, h5, h6⟩ := ih (SMUpdateXferDone m js)
      refine ⟨?_, ?_, ?_, ?_, ?_, ?_⟩
      · rw [hstep, h1, g1, List.countP_cons]
        cases hs : isSuccessMsg m <;> simp [hs]
        all_goals omega
      · rw [hstep, h2, g2, List.filter_cons]
        cases hs : isSuccessMsg m <;> simp [hs]
        all_goals omega
      · rw [hstep, h3, g3, List.countP_cons]
        cases hs : isFailedMsg m <;> simp [hs]
        all_goals omega
      · rw [hstep, h4, g4, List.filter_cons]
        cases hs : isFailedMsg m <;> simp [hs]
      · rw [hstep, h5, g5, List.countP_cons]
        cases hs : isSkippedMsg m <;> simp [hs]
        all_goals omega
      · rw [hstep, h6, g6, List.filter_cons]
        cases hs : isSkippedMsg m <;> simp [hs]

/-- Claim C9: applying the same multiset of outcomes in any two orders
from the same starting summary gives identical completed, failed and
skipped counts, identical transferred bytes, and failure and skip detail
lists with the same members. -/
theorem C9_xferDone_order_independent (js : ListJobSummaryResponse)
    (l1 l2 : List TransferDetail) (h : l1.Perm l2) :
    (applyXferDone js l1).TransfersCompleted =
      (applyXferDone js l2).TransfersCompleted ∧
    (applyXferDone js l1).TransfersFailed =
      (applyXferDone js l2).TransfersFailed ∧
    (applyXferDone js l1).TransfersSkipped =
      (applyXferDone js l2).TransfersSkipped ∧
    (applyXferDone js l1).TotalBytesTransferred =
      (applyXferDone js l2).TotalBytesTransferred ∧
    (∀ x, x ∈ (applyXferDone js l1).FailedTransfers ↔
          x ∈ (applyXferDone js l2).FailedTransfers) ∧
    (∀ x, x ∈ (applyXferDone js l1).SkippedTransfers ↔
          x ∈ (applyXferDone js l2).SkippedTransfers) := by
  obtain ⟨a1, a2, a3, a4, a5, a6⟩ := applyXferDone_fields l1 js
  obtain ⟨b1, b2, b3, b4, b5, b6⟩ := applyXferDone_fields l2 js
  refine ⟨?_, ?_, ?_, ?_, ?_, ?_⟩
  · rw [a1, b1, h.countP_eq]
  · rw [a3, b3, h.countP_eq]
  · rw [a5, b5, h.countP_eq]
  · rw [a2, b2, ((h.filter isSuccessMsg).map (fun m => m.TransferSize)).sum_eq]
  · intro x
    rw [a4, b4]
    simp only [List.mem_append]
    exact or_congr Iff.rfl (h.filter isFailedMsg).mem_iff
  · intro x
    rw [a6, b6]
    simp only [List.mem_append]
    exact or_congr Iff.rfl (h.filter isSkippedMsg).mem_iff

/-- A concrete failed outcome used by the order-independence witness. -/
def exFailedDetail : TransferDetail :=
  { Src := "/a/c.txt", Dst := "container/c.txt",
    TransferStatus := ETransferStatus.Failed, TransferSize := 512 }

/-- Witness for C9 at a concrete pair of orderings: a success and a
failure applied in both orders to the zero summary agree on the failed
count and the transferred bytes. -/
theorem C9_witness :
    (applyXferDone zeroSummary
        [exSuccessDetail, exFailedDetail]).TransfersFailed =
      (applyXferDone zeroSummary
        [exFailedDetail, exSuccessDetail]).TransfersFailed ∧
    (applyXferDone zeroSummary
        [exSuccessDetail, exFailedDetail]).TotalBytesTransferred =
      (applyXferDone zeroSummary
        [exFailedDetail, exSuccessDetail]).TotalBytesTransferred :=
  let h := C9_xferDone_order_independent zeroSummary
    [exSuccessDetail, exFailedDetail] [exFailedDetail, exSuccessDetail]
    (List.Perm.swap exFailedDetail exSuccessDetail [])
  ⟨h.2.1, h.2.2.2.1⟩

/-- Reading back the first block just written: the source half of the
string blob round trip. -/
theorem readBytes_writeBytes_left (mem : Nat → UInt8) (off : Nat)
    (src dst : List UInt8) :
    readBytes (writeBytes mem off (src ++ dst)) off src.length = src := by
  apply List.ext_getElem
  · simp [readBytes]
  · intro i h1 h2
    have hi : i < src.length := by simpa [readBytes] using h1
    simp only [readBytes, List.getElem_map, List.getElem_range, writeBytes,
      List.length_append]
    rw [if_pos (by omega)]
    have hoff : off + i - off = i := by omega
    rw [hoff]
    rw [List.getD_append _ _ _ _ hi, List.getD_eq_getElem _ _ hi]

/-- Reading back the second block just written: the destination half of
the string blob round trip. -/
theorem readBytes_writeBytes_right (mem : Nat → UInt8) (off : Nat)
    (src dst : List UInt8) :
    readBytes (writeBytes mem off (src ++ dst)) (off + src.length)
        dst.length = dst := by
  apply List.ext_getElem
  · simp [readBytes]
  · intro i h1 h2
    have hi : i < dst.length := by simpa [readBytes] using h1
    simp only [readBytes, List.getElem_map, List.getElem_range, writeBytes,
      List.length_append]
    rw [if_pos (by omega)]
    have hoff : off + src.length + i - off = src.length + i := by omega
    rw [hoff]
    rw [List.getD_append_right _ _ _ _ (by omega)]
    have hsub : src.length + i - src.length = i := by omega
    rw [hsub, List.getD_eq_getElem _ _ hi]

/-- Claim C4 amended: for every in-range transfer index the function
returns the SrcLength bytes at headerAddress + SrcOffset as the source and
the DstLength bytes immediately after as the destination — recovering
exactly the strings a writer laid out contiguously there — but it performs
no bounds check: the bytes are read from whatever the addresses hold, and
an out-of-region range is read rather than rejected. -/
theorem C4_amended_srcDst_read (mem : Nat → UInt8)
    (transfers : List JobPartPlanTransfer) (transferIndex : Nat)
    (t : JobPartPlanTransfer) (src dst : List UInt8)
    (hget : transfers[transferIndex]? = some t)
    (hsrc : t.SrcLength = src.length) (hdst : t.DstLength = dst.length) :
    (∀ mem2 : Nat → UInt8,
        TransferSrcDstStrings mem2 transfers transferIndex =
          .ok (readBytes mem2 t.SrcOffset t.SrcLength,
               readBytes mem2 (t.SrcOffset + t.SrcLength) t.DstLength)) ∧
    TransferSrcDstStrings (writeBytes mem t.SrcOffset (src ++ dst))
        transfers transferIndex = .ok (src, dst) := by
  constructor
  · intro mem2
    unfold TransferSrcDstStrings
    rw [hget]
  · unfold TransferSrcDstStrings
    rw [hget]
    dsimp only
    rw [hsrc, hdst]
    rw [readBytes_writeBytes_left, readBytes_writeBytes_right]

/-- Witness for C4 at a concrete plan: one transfer with a 2-byte source
and a 3-byte destination written contiguously at offset 0 reads back as
exactly those two byte strings. -/
theorem C4_witness :
    TransferSrcDstStrings
        (writeBytes (fun _ => 0) (0 : Nat) ([104, 105] ++ [47, 97, 98]))
        [{ SrcOffset := 0, SrcLength := 2, DstLength := 3,
           ModifiedTime := 0, SourceSize := 0, CompletionTime := 0,
           atomicTransferStatus := 0 }] 0 =
      Except.ok ([104, 105], [47, 97, 98]) :=
  (C4_amended_srcDst_read (fun _ => 0)
    [{ SrcOffset := 0, SrcLength := 2, DstLength := 3,
       ModifiedTime := 0, SourceSize := 0, CompletionTime := 0,
       atomicTransferStatus := 0 }] 0
    { SrcOffset := 0, SrcLength := 2, DstLength := 3,
      ModifiedTime := 0, SourceSize := 0, CompletionTime := 0,
      atomicTransferStatus := 0 }
    [104, 105] [47, 97, 98] rfl rfl rfl).2

/-- A one-transfer plan whose source string range lies past the 4-byte
region of the counterexample scenario. -/
def exOutOfRangeTransfer : JobPartPlanTransfer :=
  { SrcOffset := 10, SrcLength := 1, DstLength := 0,
    ModifiedTime := 0, SourceSize := 0, CompletionTime := 0,
    atomicTransferStatus := 0 }

/-- Ambient memory of the counterexample scenario: a 4-byte mapped region
holding zeros, with every address outside it holding 37. -/
def exOutsideMem : Nat → UInt8 := fun a => if a < 4 then 0 else 37

/-- Claim C4 is false on the code at a concrete input: for a 4-byte mapped
region and a transfer whose computed byte range [10, 11) lies wholly
outside it, TransferSrcDstStrings does not fail — it returns a normal
result whose source byte is read from outside the region (the value 37),
because the source performs no bounds check. -/
theorem C4_counterexample :
    exOutOfRangeTransfer.SrcOffset + exOutOfRangeTransfer.SrcLength > 4 ∧
    TransferSrcDstStrings exOutsideMem [exOutOfRangeTransfer] 0 =
      Except.ok ([37], []) := by
  refine ⟨by decide, ?_⟩
  rfl

end AzCopy
